import Mathlib

/-!
Shallow embedding of `src/rust/ittapi/src/domain.rs` from the `ittapi` crate:
the `Domain` wrapper over the native ITT domain-creation entry points, its
constructor `Domain::new`, the internal accessor `Domain::as_ptr`, and the
absence of any teardown code.

Modelling conventions:
- A raw native pointer is an address-sized value; we keep the Rust
  mutability distinction as two wrapper types, `MutDomainPtr` for
  `*mut __itt_domain` and `ConstDomainPtr` for `*const __itt_domain`,
  with `cast_const` mapping one to the other (as `<*mut T>::cast_const` does).
- The `cfg(unix)` / `cfg(windows)` conditional compilation is modelled by a
  `TargetOS` parameter fixed once per build; the selected entry point is a
  function of that parameter alone, never of any runtime input.
- The native library reached through FFI is an uninterpreted oracle
  `ffi : EntryPoint → List Nat → MutDomainPtr` mapping the invoked entry
  point and the bytes of the null-terminated argument buffer to the returned
  pointer. Every theorem quantifies over all oracles, so nothing is assumed
  about the native side, null and sentinel returns included.
- Side effects are made explicit as a trace of `FfiEvent`s returned next to
  the result; a Rust panic is modelled as `Except.error` carrying the panic
  message, as usual for fallible shallow embeddings.
- A Rust `&str` is modelled by the list of its UTF-8 byte values; an embedded
  `0` byte in the string is exactly a `0` entry of the list.
-/

/-- Raw mutable native pointer value (`*mut ittapi_sys::__itt_domain`):
an address-sized value that this layer never dereferences. -/
structure MutDomainPtr where
  addr : Nat
deriving DecidableEq

/-- Raw constant native pointer value (`*const ittapi_sys::__itt_domain`). -/
structure ConstDomainPtr where
  addr : Nat
deriving DecidableEq

/-- Embedding of `<*mut __itt_domain>::cast_const`: the same address viewed
through a non-mutable pointer type. -/
def MutDomainPtr.cast_const (p : MutDomainPtr) : ConstDomainPtr :=
  { addr := p.addr }

/-- The two native domain-creation entry points named in the source, one per
target family. -/
inductive EntryPoint
  | __itt_domain_create_ptr__3_0
  | __itt_domain_createA_ptr__3_0
deriving DecidableEq

/-- Target operating-system family, the build-time `cfg` discriminant. -/
inductive TargetOS
  | unix
  | windows
deriving DecidableEq

/-- Modelled from the spec: the `access_sys_fn!` helper lives in
`crate::util` (`util.rs` is not under `src/`); per the spec, obtaining the
platform-selected native entry point has no failure condition and involves
no runtime branching, so it is the compile-time selection below: the
`cfg(unix)` arm binds `__itt_domain_create_ptr__3_0` and the `cfg(windows)`
arm binds `__itt_domain_createA_ptr__3_0`. -/
def selectCreateFn : TargetOS → EntryPoint
  | TargetOS.unix => EntryPoint.__itt_domain_create_ptr__3_0
  | TargetOS.windows => EntryPoint.__itt_domain_createA_ptr__3_0

/-- Embedding of `std::ffi::NulError`: position of the offending `0` byte and
the offending bytes, as carried by the Rust error value. -/
structure NulError where
  pos : Nat
  bytes : List Nat
deriving DecidableEq

/-- Embedding of `std::ffi::CString`: a byte buffer with no interior `0`
byte; the terminator is appended on `as_ptr`. -/
structure CString where
  bytes : List Nat
deriving DecidableEq

/-- Embedding of `CString::new`: fails exactly when the input contains a `0`
byte anywhere, as the Rust standard library specifies. -/
def CString.new (b : List Nat) : Except NulError CString :=
  if 0 ∈ b then Except.error { pos := b.indexOf 0, bytes := b }
  else Except.ok { bytes := b }

/-- Embedding of `CString::as_ptr`: the null-terminated buffer the returned
pointer addresses. -/
def CString.as_ptr (c : CString) : List Nat :=
  c.bytes ++ [0]

/-- Embedding of `Result::expect`: a Rust panic with the given message is
modelled as `Except.error msg`. -/
def expect {ε α : Type} (r : Except ε α) (msg : String) : Except String α :=
  match r with
  | Except.ok a => Except.ok a
  | Except.error _ => Except.error msg

/-- One observable effect at the foreign boundary. `call` records an FFI call
with its entry point, null-terminated argument bytes and returned pointer;
`dealloc` records a native deallocation, an event this layer never emits. -/
inductive FfiEvent
  | call (fn : EntryPoint) (arg : List Nat) (ret : MutDomainPtr)
  | dealloc (p : MutDomainPtr)
deriving DecidableEq

/-- True exactly on deallocation events. -/
def FfiEvent.isDealloc : FfiEvent → Bool
  | FfiEvent.call _ _ _ => false
  | FfiEvent.dealloc _ => true

/-- Embedding of `pub struct Domain(*mut ittapi_sys::__itt_domain)`. -/
structure Domain where
  ptr : MutDomainPtr
deriving DecidableEq

/-- The panic message of the `expect` call in `Domain::new`. -/
def domainNewPanicMsg : String :=
  "unable to create a CString; does it contain a 0 byte?"

/-- Embedding of `Domain::new`. `os` is the build target fixed at compile
time, `ffi` the uninterpreted native library, `name` the bytes of the input
string. The result pairs the returned handle (or the panic, as
`Except.error`) with the trace of foreign-boundary events. -/
def Domain.new (os : TargetOS) (ffi : EntryPoint → List Nat → MutDomainPtr)
    (name : List Nat) : Except String Domain × List FfiEvent :=
  let create_fn := selectCreateFn os
  match expect (CString.new name) domainNewPanicMsg with
  | Except.error msg => (Except.error msg, [])
  | Except.ok c_string =>
    let domain := ffi create_fn (CString.as_ptr c_string)
    (Except.ok { ptr := domain }, [FfiEvent.call create_fn (CString.as_ptr c_string) domain])

/-- Embedding of `Domain::as_ptr`: `self.0.cast_const()`. A total pure
function of the handle value, so it has no failure condition and repeated
calls on the same handle agree definitionally. -/
def Domain.as_ptr (d : Domain) : ConstDomainPtr :=
  d.ptr.cast_const

/-- The source declares no `Drop` implementation for `Domain`, so scope-exit
cleanup issues no call across the foreign boundary: teardown is a no-op with
an empty event trace. -/
def Domain.drop (_d : Domain) : List FfiEvent :=
  []

/-! Helper lemmas shared by the claim theorems. -/

theorem Domain.new_of_mem_nul {name : List Nat} (h : 0 ∈ name)
    (os : TargetOS) (ffi : EntryPoint → List Nat → MutDomainPtr) :
    Domain.new os ffi name = (Except.error domainNewPanicMsg, []) := by
  simp [Domain.new, CString.new, expect, h]

theorem Domain.new_of_no_nul {name : List Nat} (h : 0 ∉ name)
    (os : TargetOS) (ffi : EntryPoint → List Nat → MutDomainPtr) :
    Domain.new os ffi name =
      (Except.ok { ptr := ffi (selectCreateFn os) (name ++ [0]) },
        [FfiEvent.call (selectCreateFn os) (name ++ [0])
          (ffi (selectCreateFn os) (name ++ [0]))]) := by
  simp [Domain.new, CString.new, expect, CString.as_ptr, h]

/-! Claim theorems. -/

/-- C1: `Domain::new` aborts (yields no handle) exactly when the name
contains an embedded `0` byte; for every name without a `0` byte, the empty
name included, it returns a handle, and this is the sole error condition. -/
theorem domain_new_aborts_iff_nul (os : TargetOS)
    (ffi : EntryPoint → List Nat → MutDomainPtr) (name : List Nat) :
    ((Domain.new os ffi name).1 = Except.error domainNewPanicMsg ↔ 0 ∈ name) ∧
    (0 ∉ name →
      (Domain.new os ffi name).1 =
        Except.ok { ptr := ffi (selectCreateFn os) (name ++ [0]) }) := by
  by_cases h : 0 ∈ name
  · simp [Domain.new_of_mem_nul h, h]
  · simp [Domain.new_of_no_nul h, h]

/-- C1 witness: the empty name contains no `0` byte and yields a handle. -/
theorem domain_new_aborts_iff_nul_witness :
    (Domain.new TargetOS.unix (fun _ _ => { addr := 7 }) []).1 =
      Except.ok { ptr := { addr := 7 } } :=
  (domain_new_aborts_iff_nul TargetOS.unix (fun _ _ => { addr := 7 }) []).2
    (by decide)

/-- C2: whatever pointer the native entry point returns, a null (address 0)
or sentinel value included, `Domain::new` wraps it unconditionally into the
returned handle. The theorem holds uniformly in the oracle `ffi`, so the
result is obtained with no null-check, no retry and no branching on the
returned pointer value. -/
theorem domain_new_wraps_unconditionally (os : TargetOS)
    (ffi : EntryPoint → List Nat → MutDomainPtr) (name : List Nat)
    (h : 0 ∉ name) :
    (Domain.new os ffi name).1 =
      Except.ok { ptr := ffi (selectCreateFn os) (name ++ [0]) } := by
  rw [Domain.new_of_no_nul h]

/-- C2 witness: a native call returning the null pointer (address 0) is still
wrapped into a handle. -/
theorem domain_new_wraps_unconditionally_witness :
    (Domain.new TargetOS.unix (fun _ _ => { addr := 0 }) [97]).1 =
      Except.ok { ptr := { addr := 0 } } :=
  domain_new_wraps_unconditionally TargetOS.unix (fun _ _ => { addr := 0 })
    [97] (by decide)

/-- C3: for every handle produced by `Domain::new`, `as_ptr` returns exactly
the pointer value the native call produced at construction time, viewed
through a non-mutable pointer type with the same address; `as_ptr` is a total
pure function of the handle, so repeated calls agree and nothing mutates the
handle between construction and access. -/
theorem as_ptr_returns_construction_value (os : TargetOS)
    (ffi : EntryPoint → List Nat → MutDomainPtr) (name : List Nat)
    (d : Domain) (h : (Domain.new os ffi name).1 = Except.ok d) :
    d.as_ptr = (ffi (selectCreateFn os) (name ++ [0])).cast_const ∧
    d.as_ptr.addr = d.ptr.addr := by
  by_cases hm : 0 ∈ name
  · rw [Domain.new_of_mem_nul hm] at h
    exact absurd h (by simp)
  · rw [Domain.new_of_no_nul hm] at h
    have hd : ({ ptr := ffi (selectCreateFn os) (name ++ [0]) } : Domain) = d := by
      injection h
    subst hd
    exact ⟨rfl, rfl⟩

/-- C3 witness: a concrete construction whose accessor yields the address the
native call returned. -/
theorem as_ptr_returns_construction_value_witness :
    Domain.as_ptr { ptr := { addr := 7 } } =
        MutDomainPtr.cast_const { addr := 7 } ∧
      (Domain.as_ptr { ptr := { addr := 7 } }).addr =
        (({ ptr := { addr := 7 } } : Domain)).ptr.addr :=
  as_ptr_returns_construction_value TargetOS.unix (fun _ _ => { addr := 7 })
    [97] { ptr := { addr := 7 } } (by rfl)

/-- C5: the native entry point is selected by the build target alone: the
Unix family selects only `__itt_domain_create_ptr__3_0`, the Windows family
only `__itt_domain_createA_ptr__3_0`, and every foreign call in any trace of
`Domain.new` invokes exactly the entry point selected for its target, never
the other one, regardless of any runtime input. -/
theorem entry_point_selected_at_compile_time (os : TargetOS)
    (ffi : EntryPoint → List Nat → MutDomainPtr) (name : List Nat) :
    selectCreateFn TargetOS.unix = EntryPoint.__itt_domain_create_ptr__3_0 ∧
    selectCreateFn TargetOS.windows = EntryPoint.__itt_domain_createA_ptr__3_0 ∧
    ((Domain.new os ffi name).2 = [] ∨
      (Domain.new os ffi name).2 =
        [FfiEvent.call (selectCreateFn os) (name ++ [0])
          (ffi (selectCreateFn os) (name ++ [0]))]) := by
  refine ⟨rfl, rfl, ?_⟩
  by_cases h : 0 ∈ name
  · exact Or.inl (by rw [Domain.new_of_mem_nul h])
  · exact Or.inr (by rw [Domain.new_of_no_nul h])

/-- C6: when `Domain::new` aborts on an embedded `0` byte, the abort carries
the diagnostic message naming the CString-conversion cause, and there is no
partial result state: every call either yields a handle or that exact
diagnostic. -/
theorem abort_carries_diagnostic (os : TargetOS)
    (ffi : EntryPoint → List Nat → MutDomainPtr) (name : List Nat) :
    (0 ∈ name →
      (Domain.new os ffi name).1 =
        Except.error "unable to create a CString; does it contain a 0 byte?") ∧
    ((Domain.new os ffi name).1 = Except.error domainNewPanicMsg ∨
      (Domain.new os ffi name).1 =
        Except.ok { ptr := ffi (selectCreateFn os) (name ++ [0]) }) := by
  by_cases h : 0 ∈ name
  · exact ⟨fun _ => by rw [Domain.new_of_mem_nul h]; rfl,
      Or.inl (by rw [Domain.new_of_mem_nul h])⟩
  · exact ⟨fun hc => absurd hc h, Or.inr (by rw [Domain.new_of_no_nul h])⟩

/-- C6 witness: a name that is a single `0` byte aborts with the diagnostic
message. -/
theorem abort_carries_diagnostic_witness :
    (Domain.new TargetOS.unix (fun _ _ => { addr := 7 }) [0]).1 =
      Except.error "unable to create a CString; does it contain a 0 byte?" :=
  (abort_carries_diagnostic TargetOS.unix (fun _ _ => { addr := 7 }) [0]).1
    (by decide)

/-- C7: a successful `Domain::new` performs exactly one foreign call, and its
event trace contains nothing besides that single call: no logging event, no
deallocation, no other effect. -/
theorem successful_new_exactly_one_ffi_call (os : TargetOS)
    (ffi : EntryPoint → List Nat → MutDomainPtr) (name : List Nat)
    (h : 0 ∉ name) :
    (Domain.new os ffi name).2 =
      [FfiEvent.call (selectCreateFn os) (name ++ [0])
        (ffi (selectCreateFn os) (name ++ [0]))] := by
  rw [Domain.new_of_no_nul h]

/-- C7 witness: a concrete successful construction whose trace is a single
foreign call. -/
theorem successful_new_exactly_one_ffi_call_witness :
    (Domain.new TargetOS.unix (fun _ _ => { addr := 7 }) [116]).2 =
      [FfiEvent.call EntryPoint.__itt_domain_create_ptr__3_0 [116, 0]
        { addr := 7 }] :=
  successful_new_exactly_one_ffi_call TargetOS.unix (fun _ _ => { addr := 7 })
    [116] (by decide)

/-- C8: a `Domain` handle is never explicitly destroyed: its drop is a no-op
emitting no foreign-boundary event, and no trace of any operation of this
layer ever contains a deallocation event. -/
theorem no_native_teardown (d : Domain) (os : TargetOS)
    (ffi : EntryPoint → List Nat → MutDomainPtr) (name : List Nat) :
    Domain.drop d = [] ∧
    ((Domain.new os ffi name).2.all fun e => ! FfiEvent.isDealloc e) = true ∧
    (Domain.drop d).all (fun e => ! FfiEvent.isDealloc e) = true := by
  refine ⟨rfl, ?_, rfl⟩
  by_cases h : 0 ∈ name
  · rw [Domain.new_of_mem_nul h]
    rfl
  · rw [Domain.new_of_no_nul h]
    rfl

/-- C9: when `Domain::new` aborts on an embedded `0` byte, the native entry
point is never invoked: the conversion panic happens strictly before the
foreign call, so the error path carries an empty event trace. -/
theorem abort_path_no_ffi_call (os : TargetOS)
    (ffi : EntryPoint → List Nat → MutDomainPtr) (name : List Nat)
    (h : 0 ∈ name) :
    (Domain.new os ffi name).1 = Except.error domainNewPanicMsg ∧
    (Domain.new os ffi name).2 = [] := by
  rw [Domain.new_of_mem_nul h]
  exact ⟨rfl, rfl⟩

/-- C9 witness: a name with an interior `0` byte aborts with an empty event
trace. -/
theorem abort_path_no_ffi_call_witness :
    (Domain.new TargetOS.unix (fun _ _ => { addr := 7 }) [122, 0, 98]).1 =
        Except.error domainNewPanicMsg ∧
      (Domain.new TargetOS.unix (fun _ _ => { addr := 7 }) [122, 0, 98]).2 = [] :=
  abort_path_no_ffi_call TargetOS.unix (fun _ _ => { addr := 7 }) [122, 0, 98]
    (by decide)

/-- C10: a trailing `0` byte is rejected like any other: for every name whose
only `0` byte is its final byte, `Domain::new` still aborts instead of
treating the name as already null-terminated. -/
theorem trailing_nul_rejected (os : TargetOS)
    (ffi : EntryPoint → List Nat → MutDomainPtr) (ys : List Nat)
    (_h : 0 ∉ ys) :
    (Domain.new os ffi (ys ++ [0])).1 = Except.error domainNewPanicMsg := by
  have hm : 0 ∈ ys ++ [0] := List.mem_append.mpr (Or.inr (List.mem_singleton.mpr rfl))
  rw [Domain.new_of_mem_nul hm]

/-- C10 witness: the name abc followed by a single trailing `0` byte aborts. -/
theorem trailing_nul_rejected_witness :
    (Domain.new TargetOS.unix (fun _ _ => { addr := 7 })
        ([97, 98, 99] ++ [0])).1 = Except.error domainNewPanicMsg :=
  trailing_nul_rejected TargetOS.unix (fun _ _ => { addr := 7 }) [97, 98, 99]
    (by decide)
